import Mathlib

/-!
Shallow embedding of the URL-shortener backend (routes/redirect.js,
routes/urls.js, models/Url.js, models/Click.js) and proofs about its
redirect, geolocation, device-classification and delete-cascade logic.

The MongoDB store is modelled as in-memory lists; ObjectIds as `Nat`;
the external geolocation fetch as an explicit `GeoOutcome` parameter
(the environment's answer: a network/parse error, or a provider JSON
reply).  Express request handling is modelled as pure functions from a
request and store to a response, a store, and the background task the
handler schedules.
-/

namespace UrlShortener

/-! ### JavaScript string primitives, modelled on `List Char` -/

/-- `charsStarts p s` : the char list `p` is an initial segment of `s`
(model of JS `String.prototype.startsWith` after `String.data`). -/
def charsStarts : List Char → List Char → Bool
  | [], _ => true
  | _ :: _, [] => false
  | a :: p, b :: s => a == b && charsStarts p s

/-- `charsContains n s` : the char list `n` occurs contiguously in `s`
(model of JS `String.prototype.includes` / a literal-alternative regex test). -/
def charsContains (n : List Char) : List Char → Bool
  | [] => charsStarts n []
  | b :: s => charsStarts n (b :: s) || charsContains n s

/-- JS `s.startsWith(pat)`. -/
def jsStartsWith (s pat : String) : Bool := charsStarts pat.data s.data

/-- JS `s.includes(pat)`. -/
def jsIncludes (s pat : String) : Bool := charsContains pat.data s.data

/-- JS `s.toLowerCase()` (ASCII, which is all the user-agent patterns use). -/
def jsToLower (s : String) : String := ⟨s.data.map Char.toLower⟩

/-! ### User-agent classification (redirect.js lines 10-51) -/

/-- The combined regex `/mobile|android|iphone|ipad|ipod|blackberry|iemobile|opera mini/i`
tested on the already-lowercased user agent (redirect.js line 13). -/
def mobilePattern (ua : String) : Bool :=
  jsIncludes ua "mobile" || jsIncludes ua "android" || jsIncludes ua "iphone" ||
  jsIncludes ua "ipad" || jsIncludes ua "ipod" || jsIncludes ua "blackberry" ||
  jsIncludes ua "iemobile" || jsIncludes ua "opera mini"

/-- The regex `/tablet|ipad/i` tested on the lowercased user agent (line 16). -/
def tabletPattern (ua : String) : Bool :=
  jsIncludes ua "tablet" || jsIncludes ua "ipad"

/-- `getDeviceType` (redirect.js lines 10-20).  The falsy check `!userAgent`
is the empty-string check for a string argument. -/
def getDeviceType (userAgent : String) : String :=
  if userAgent = "" then "desktop"
  else
    let ua := jsToLower userAgent
    if mobilePattern ua then "mobile"
    else if tabletPattern ua then "tablet"
    else "desktop"

/-- `getBrowser` (redirect.js lines 25-34); case-sensitive `includes` chain. -/
def getBrowser (userAgent : String) : String :=
  if userAgent = "" then "Unknown"
  else if jsIncludes userAgent "Firefox" then "Firefox"
  else if jsIncludes userAgent "Edg" then "Edge"
  else if jsIncludes userAgent "Chrome" then "Chrome"
  else if jsIncludes userAgent "Safari" then "Safari"
  else if jsIncludes userAgent "Opera" || jsIncludes userAgent "OPR" then "Opera"
  else if jsIncludes userAgent "MSIE" || jsIncludes userAgent "Trident" then "Internet Explorer"
  else "Other"

/-- `getOS` (redirect.js lines 39-51). -/
def getOS (userAgent : String) : String :=
  if userAgent = "" then "Unknown"
  else if jsIncludes userAgent "Windows NT 10" then "Windows 10"
  else if jsIncludes userAgent "Windows NT 6.3" then "Windows 8.1"
  else if jsIncludes userAgent "Windows NT 6.2" then "Windows 8"
  else if jsIncludes userAgent "Windows NT 6.1" then "Windows 7"
  else if jsIncludes userAgent "Windows" then "Windows"
  else if jsIncludes userAgent "Mac OS X" then "macOS"
  else if jsIncludes userAgent "Android" then "Android"
  else if jsIncludes userAgent "iPhone" || jsIncludes userAgent "iPad" then "iOS"
  else if jsIncludes userAgent "Linux" then "Linux"
  else "Other"

/-! ### Geolocation resolver (redirect.js lines 67-91) -/

/-- The city/country/region triple the resolver returns. -/
structure Geo where
  city : String
  country : String
  region : String
deriving Repr, DecidableEq

def unknownGeo : Geo := ⟨"Unknown", "Unknown", "Unknown"⟩

def localGeo : Geo := ⟨"Local", "Local", "Local"⟩

/-- What the environment does when the resolver reaches the external fetch:
either the fetch / JSON parse throws (`fail`), or the provider replies with a
`status` field and optional `city`/`country`/`regionName` fields. -/
inductive GeoOutcome where
  | fail (err : String)
  | reply (status : String) (city country regionName : Option String)
deriving Repr, DecidableEq

/-- The loopback/private short-circuit condition (redirect.js line 70). -/
def isLocalIP (ip : String) : Bool :=
  ip == "127.0.0.1" || ip == "::1" || ip == "localhost" ||
  jsStartsWith ip "192.168." || jsStartsWith ip "10."

/-- JS `v || dflt` for an optional string field: `undefined` and `""` are falsy. -/
def jsOrDefault (v : Option String) (dflt : String) : String :=
  match v with
  | none => dflt
  | some s => if s = "" then dflt else s

/-- The `try` block of `getGeolocation` (redirect.js lines 68-86).  The pair's
second component records whether the outbound fetch was attempted; an
`Except.error` is a thrown exception escaping the block. -/
def geoTryBlock (ip : String) (o : GeoOutcome) : Except String (Geo × Bool) :=
  if isLocalIP ip then Except.ok (localGeo, false)
  else
    match o with
    | .fail e => Except.error e
    | .reply status city country regionName =>
        if status == "success" then
          Except.ok (⟨jsOrDefault city "Unknown", jsOrDefault country "Unknown",
                      jsOrDefault regionName "Unknown"⟩, true)
        else Except.ok (unknownGeo, true)

/-- `getGeolocation` (redirect.js lines 67-91): the try block with its `catch`,
which logs and returns the Unknown triple instead of rethrowing. -/
def getGeolocation (ip : String) (o : GeoOutcome) : Except String (Geo × Bool) :=
  match geoTryBlock ip o with
  | Except.error _ => Except.ok (unknownGeo, true)
  | r => r

/-- The triple an (always-successful) `getGeolocation` call resolves to. -/
def geoValue (ip : String) (o : GeoOutcome) : Geo :=
  match getGeolocation ip o with
  | Except.ok g => g.1
  | Except.error _ => unknownGeo

/-! ### Data model (models/Url.js, models/Click.js), store as lists -/

/-- A `Url` document (models/Url.js); `_id` and `userId` as `Nat`. -/
structure ShortLink where
  id : Nat
  userId : Nat
  title : String
  originalUrl : String
  shortUrl : String
  customUrl : Option String
  qrPublicId : String
deriving Repr, DecidableEq

/-- A `Click` document (models/Click.js). -/
structure ClickEvent where
  urlId : Nat
  ip : String
  city : String
  country : String
  region : String
  device : String
  browser : String
  os : String
  referer : String
deriving Repr, DecidableEq

/-- The two collections the routes touch. -/
structure Store where
  urls : List ShortLink
  clicks : List ClickEvent
deriving Repr, DecidableEq

/-- `Url.findOne({$or: [{shortUrl}, {customUrl}]})`
(redirect.js lines 125-130 and 189-194). -/
def findUrl (urls : List ShortLink) (code : String) : Option ShortLink :=
  urls.find? (fun u => u.shortUrl == code || u.customUrl == some code)

/-! ### The redirect handler `GET /:shortCode` (redirect.js lines 115-179) -/

/-- The responses the handler can send before any background work runs. -/
inductive Response where
  | redirect (target : String)
  | notFoundJson
  | notFoundPage
deriving Repr, DecidableEq

/-- HTTP status of each response: `res.redirect(302, ...)` at line 174,
`res.status(404)` at lines 121 and 133. -/
def Response.status : Response → Nat
  | .redirect _ => 302
  | .notFoundJson => 404
  | .notFoundPage => 404

/-- The request data the handler reads: the path segment, the optional
`user-agent` and `referer` headers, and the client IP (already extracted
by `getClientIP`). -/
structure RedirectRequest where
  shortCode : String
  userAgentHeader : Option String
  refererHeader : Option String
  ip : String
deriving Repr, DecidableEq

/-- The click-recording task scheduled at lines 155-171: everything it
closes over except the geolocation triple it still awaits. -/
structure PendingClick where
  urlId : Nat
  ip : String
  device : String
  browser : String
  os : String
  referer : String
deriving Repr, DecidableEq

/-- The synchronous part of the handler (lines 115-174): the response it
sends, and the background task it schedules (if any).  Mirrors the source
order: reserved-segment check, store lookup, client-info extraction with
the `|| ''` / `|| 'Direct'` defaults (lines 147-149), then the immediate
302.  The geolocation outcome is *not* an input: the response cannot
depend on it. -/
def handleRedirect (store : Store) (req : RedirectRequest) :
    Response × Option PendingClick :=
  if req.shortCode = "api" then (Response.notFoundJson, none)
  else
    match findUrl store.urls req.shortCode with
    | none => (Response.notFoundPage, none)
    | some url =>
        let userAgent := req.userAgentHeader.getD ""
        (Response.redirect url.originalUrl,
         some { urlId := url.id, ip := req.ip,
                device := getDeviceType userAgent,
                browser := getBrowser userAgent,
                os := getOS userAgent,
                referer := req.refererHeader.getD "Direct" })

/-- `Click.create({...})` inside the scheduled task (lines 157-167). -/
def recordClick (p : PendingClick) (g : Geo) : ClickEvent :=
  { urlId := p.urlId, ip := p.ip, city := g.city, country := g.country,
    region := g.region, device := p.device, browser := p.browser,
    os := p.os, referer := p.referer }

/-- One whole redirect interaction: the synchronous handler, then the
background task completing under geolocation outcome `o`.  Returns the
response (already sent before the task ran) and the final store. -/
def redirectStep (store : Store) (req : RedirectRequest) (o : GeoOutcome) :
    Response × Store :=
  match handleRedirect store req with
  | (resp, none) => (resp, store)
  | (resp, some p) =>
      (resp, { store with
               clicks := store.clicks ++ [recordClick p (geoValue req.ip o)] })

/-! ### The delete handler `DELETE /api/urls/:id` (urls.js lines 175-211) -/

/-- `Url.findOne({_id, userId})` then `Click.deleteMany({urlId})` and
`url.deleteOne()`.  Returns whether a URL was found and the new store. -/
def deleteUrl (store : Store) (uid : Nat) (urlId : Nat) : Bool × Store :=
  match store.urls.find? (fun u => u.id == urlId && u.userId == uid) with
  | none => (false, store)
  | some url =>
      (true, { urls := store.urls.filter (fun u => u.id != url.id),
               clicks := store.clicks.filter (fun c => c.urlId != url.id) })

/-! ### Concrete fixtures used by witnesses and counterexamples -/

/-- A stored link with shortUrl `abc123` and customUrl `mysite`. -/
def demoLink : ShortLink :=
  { id := 1, userId := 7, title := "demo",
    originalUrl := "https://example.com/landing",
    shortUrl := "abc123", customUrl := some "mysite", qrPublicId := "" }

/-- A store holding just `demoLink`. -/
def demoStore : Store := { urls := [demoLink], clicks := [] }

/-- A request for `demoLink`'s generated short code. -/
def demoReq : RedirectRequest :=
  { shortCode := "abc123",
    userAgentHeader := some "Mozilla/5.0 (iPhone) Mobile Safari",
    refererHeader := none, ip := "203.0.113.9" }

/-- A stored link whose owner chose the custom alias `api` — nothing in the
creation route's validation forbids it. -/
def apiAliasLink : ShortLink :=
  { id := 3, userId := 7, title := "trap",
    originalUrl := "https://trap.example/page",
    shortUrl := "zzz999", customUrl := some "api", qrPublicId := "" }

def apiAliasStore : Store := { urls := [apiAliasLink], clicks := [] }

def apiAliasReq : RedirectRequest :=
  { shortCode := "api", userAgentHeader := none,
    refererHeader := none, ip := "203.0.113.9" }

/-- A request whose segment matches nothing in `demoStore`. -/
def missReq : RedirectRequest :=
  { shortCode := "nodope", userAgentHeader := none,
    refererHeader := none, ip := "203.0.113.9" }

/-- A stored link whose short code merely begins with `api`. -/
def apidocsLink : ShortLink :=
  { id := 2, userId := 7, title := "docs",
    originalUrl := "https://docs.example/start",
    shortUrl := "apidocs", customUrl := none, qrPublicId := "" }

def apidocsStore : Store := { urls := [apidocsLink], clicks := [] }

def apidocsReq : RedirectRequest :=
  { shortCode := "apidocs", userAgentHeader := none,
    refererHeader := none, ip := "203.0.113.9" }

/-- Two links and three clicks; clicks 1 and 2 reference link 1. -/
def delLink1 : ShortLink :=
  { id := 1, userId := 7, title := "a", originalUrl := "https://a.example",
    shortUrl := "aaaaaa", customUrl := none, qrPublicId := "" }

def delLink2 : ShortLink :=
  { id := 2, userId := 7, title := "b", originalUrl := "https://b.example",
    shortUrl := "bbbbbb", customUrl := none, qrPublicId := "" }

def mkClick (uid : Nat) : ClickEvent :=
  { urlId := uid, ip := "203.0.113.9", city := "Unknown",
    country := "Unknown", region := "Unknown", device := "desktop",
    browser := "Other", os := "Other", referer := "Direct" }

def twoLinkStore : Store :=
  { urls := [delLink1, delLink2],
    clicks := [mkClick 1, mkClick 1, mkClick 2] }

/-! ### Helper lemmas -/

theorem charsStarts_append (p q s : List Char)
    (h : charsStarts (p ++ q) s = true) : charsStarts p s = true := by
  induction p generalizing s with
  | nil => simp [charsStarts]
  | cons a p ih =>
      cases s with
      | nil => simp [charsStarts] at h
      | cons b t =>
          simp only [List.cons_append, charsStarts, Bool.and_eq_true] at h ⊢
          exact ⟨h.1, ih t h.2⟩

theorem charsStarts_two_determined (s : List Char) (a b a' b' : Char)
    (h : charsStarts [a, b] s = true) (h' : charsStarts [a', b'] s = true) :
    a = a' ∧ b = b' := by
  cases s with
  | nil => simp [charsStarts] at h
  | cons c t =>
      cases t with
      | nil => simp [charsStarts] at h
      | cons c2 t2 =>
          simp only [charsStarts, Bool.and_eq_true, beq_iff_eq] at h h'
          exact ⟨h.1.trans h'.1.symm, h.2.1.trans h'.2.1.symm⟩

theorem isLocalIP_iff (ip : String) :
    isLocalIP ip = true ↔
      ip = "127.0.0.1" ∨ ip = "::1" ∨ ip = "localhost" ∨
      jsStartsWith ip "192.168." = true ∨ jsStartsWith ip "10." = true := by
  simp [isLocalIP, Bool.or_eq_true, beq_iff_eq, or_assoc]

theorem not_local_of_starts_172_16 (ip : String)
    (h : jsStartsWith ip "172.16." = true) : isLocalIP ip = false := by
  have h17 : charsStarts ['1', '7'] ip.data = true :=
    charsStarts_append ['1', '7'] ['2', '.', '1', '6', '.'] ip.data h
  cases hb : isLocalIP ip with
  | false => rfl
  | true =>
      exfalso
      rcases (isLocalIP_iff ip).1 hb with h1 | h1 | h1 | h1 | h1
      · subst h1; exact absurd h (by decide)
      · subst h1; exact absurd h (by decide)
      · subst h1; exact absurd h (by decide)
      · have h19 : charsStarts ['1', '9'] ip.data = true :=
          charsStarts_append ['1', '9'] ['2', '.', '1', '6', '8', '.'] ip.data h1
        exact absurd (charsStarts_two_determined _ _ _ _ _ h17 h19).2 (by decide)
      · have h10 : charsStarts ['1', '0'] ip.data = true :=
          charsStarts_append ['1', '0'] ['.'] ip.data h1
        exact absurd (charsStarts_two_determined _ _ _ _ _ h17 h10).2 (by decide)

end UrlShortener

namespace UrlShortener

/-! ### Claim theorems -/

/-- C4: for every input IP string, `getGeolocation` never raises an error to
its caller; when the external lookup is actually attempted (non-local IP),
any thrown failure and any non-success provider status yield the Unknown
triple, and a success reply has each missing/empty field substituted with
"Unknown". -/
theorem geolocation_absorbs_failures (ip : String) (o : GeoOutcome) :
    (∃ g, getGeolocation ip o = Except.ok g) ∧
    (isLocalIP ip = false →
      (∀ e, o = GeoOutcome.fail e →
        getGeolocation ip o = Except.ok (unknownGeo, true)) ∧
      (∀ st c co r, o = GeoOutcome.reply st c co r → st ≠ "success" →
        getGeolocation ip o = Except.ok (unknownGeo, true)) ∧
      (∀ c co r, o = GeoOutcome.reply "success" c co r →
        getGeolocation ip o = Except.ok
          (⟨jsOrDefault c "Unknown", jsOrDefault co "Unknown",
            jsOrDefault r "Unknown"⟩, true))) := by
  constructor
  · unfold getGeolocation
    cases hb : geoTryBlock ip o with
    | error e => exact ⟨(unknownGeo, true), rfl⟩
    | ok g => exact ⟨g, rfl⟩
  · intro hloc
    refine ⟨?_, ?_, ?_⟩
    · rintro e rfl
      simp [getGeolocation, geoTryBlock, hloc]
    · rintro st c co r rfl hst
      simp [getGeolocation, geoTryBlock, hloc, hst]
    · rintro c co r rfl
      simp [getGeolocation, geoTryBlock, hloc]

/-- Witness for C4 at a concrete non-local IP and a thrown network error. -/
theorem geolocation_absorbs_failures_witness :
    getGeolocation "8.8.8.8" (GeoOutcome.fail "network down") =
      Except.ok (unknownGeo, true) :=
  ((geolocation_absorbs_failures "8.8.8.8"
      (GeoOutcome.fail "network down")).2 (by decide)).1 "network down" rfl

/-- C5: every IP the source recognizes as loopback/private resolves to the
Local triple with no outbound network call attempted (`false` flag). -/
theorem geolocation_local_short_circuit (ip : String) (o : GeoOutcome)
    (h : isLocalIP ip = true) :
    getGeolocation ip o = Except.ok (localGeo, false) := by
  simp [getGeolocation, geoTryBlock, h]

/-- Witness for C5 at `127.0.0.1` (even with a provider reply available,
it is never consulted). -/
theorem geolocation_local_short_circuit_witness :
    getGeolocation "127.0.0.1"
        (GeoOutcome.reply "success" (some "X") (some "Y") (some "Z")) =
      Except.ok (localGeo, false) :=
  geolocation_local_short_circuit "127.0.0.1"
    (GeoOutcome.reply "success" (some "X") (some "Y") (some "Z")) (by decide)

/-- C10: the local short-circuit covers exactly the literals `127.0.0.1`,
`::1`, `localhost` and the `192.168.` / `10.` string prefixes; an IP in
172.16.0.0/12 written with the `172.16.` prefix is not treated as local,
and for every non-local IP the external lookup is attempted (`true` flag
on every possible result). -/
theorem local_short_circuit_exact_coverage (ip : String) (o : GeoOutcome) :
    (isLocalIP ip = true ↔
      (ip = "127.0.0.1" ∨ ip = "::1" ∨ ip = "localhost" ∨
       jsStartsWith ip "192.168." = true ∨ jsStartsWith ip "10." = true)) ∧
    (jsStartsWith ip "172.16." = true → isLocalIP ip = false) ∧
    (isLocalIP ip = false →
      ∀ g b, getGeolocation ip o = Except.ok (g, b) → b = true) := by
  refine ⟨isLocalIP_iff ip, not_local_of_starts_172_16 ip, ?_⟩
  intro hloc g b hg
  cases o with
  | fail e =>
      simp [getGeolocation, geoTryBlock, hloc] at hg
      exact hg.2
  | reply st c co r =>
      by_cases hst : st = "success" <;>
        simp [getGeolocation, geoTryBlock, hloc, hst] at hg <;>
        exact hg.2

/-- Witness for C10 at the concrete private-range IP `172.16.0.1`. -/
theorem local_short_circuit_exact_coverage_witness :
    isLocalIP "172.16.0.1" = false :=
  (local_short_circuit_exact_coverage "172.16.0.1" (GeoOutcome.fail "e")).2.1
    (by decide)

/-- The `$or` predicate of `findUrl`, as a proposition. -/
theorem findUrl_pred (u : ShortLink) (code : String) :
    (u.shortUrl == code || u.customUrl == some code) = true ↔
      u.shortUrl = code ∨ u.customUrl = some code := by
  simp [Bool.or_eq_true, beq_iff_eq]

/-- If `u` is the unique link matching `code`, the lookup returns `u`. -/
theorem findUrl_unique (urls : List ShortLink) (code : String) (u : ShortLink)
    (hmem : u ∈ urls)
    (hmatch : u.shortUrl = code ∨ u.customUrl = some code)
    (huniq : ∀ v ∈ urls, (v.shortUrl = code ∨ v.customUrl = some code) → v = u) :
    findUrl urls code = some u := by
  cases hf : urls.find? (fun v => v.shortUrl == code || v.customUrl == some code) with
  | none =>
      exact absurd ((findUrl_pred u code).2 hmatch)
        (List.find?_eq_none.mp hf u hmem)
  | some v =>
      have h1 := List.mem_of_find?_eq_some hf
      have hp := List.find?_some hf
      have h2 := (findUrl_pred v code).1 hp
      unfold findUrl
      rw [hf, huniq v h1 h2]

/-- C6: the Short-Code Resolver finds a link iff the queried segment equals
that link's generated short code or its custom alias: every hit is a stored
link matching on one of the two fields, and any stored link matching on
either field guarantees a hit. -/
theorem findUrl_either_field (urls : List ShortLink) (code : String) :
    (∀ u, findUrl urls code = some u →
      u ∈ urls ∧ (u.shortUrl = code ∨ u.customUrl = some code)) ∧
    ((∃ u ∈ urls, u.shortUrl = code ∨ u.customUrl = some code) →
      ∃ u, findUrl urls code = some u) := by
  constructor
  · intro u hu
    unfold findUrl at hu
    have hp := List.find?_some hu
    exact ⟨List.mem_of_find?_eq_some hu, (findUrl_pred u code).1 hp⟩
  · rintro ⟨u, hmem, hmatch⟩
    cases hf : findUrl urls code with
    | some v => exact ⟨v, rfl⟩
    | none =>
        unfold findUrl at hf
        exact absurd ((findUrl_pred u code).2 hmatch)
          (List.find?_eq_none.mp hf u hmem)

/-- Witness for C6: looking up the custom alias `mysite` hits `demoLink`,
which matches on the custom-alias field. -/
theorem findUrl_either_field_witness :
    demoLink ∈ [demoLink] ∧
      (demoLink.shortUrl = "mysite" ∨ demoLink.customUrl = some "mysite") :=
  (findUrl_either_field [demoLink] "mysite").1 demoLink (by decide)

/-- C7 counterexample: the claim says the classifier never returns
`"tablet"`, but the combined mobile pattern does not contain the token
`tablet` itself, so the user agent `"tablet"` reaches the tablet branch. -/
theorem device_type_tablet_reachable :
    getDeviceType "tablet" = "tablet" ∧
    getDeviceType "tablet" ≠ "mobile" ∧ getDeviceType "tablet" ≠ "desktop" := by
  decide

/-- C7 (amended): only the `ipad` alternative of the tablet branch is
shadowed: any user agent containing `ipad` (case-insensitively) is
classified `"mobile"`, and `"tablet"` is returned exactly for user agents
that contain the token `tablet` while matching no token of the combined
mobile pattern. -/
theorem device_type_tablet_only_via_tablet_token (ua : String) :
    (jsIncludes (jsToLower ua) "ipad" = true → getDeviceType ua = "mobile") ∧
    (getDeviceType ua = "tablet" →
      jsIncludes (jsToLower ua) "tablet" = true ∧
      mobilePattern (jsToLower ua) = false) := by
  constructor
  · intro hip
    have hm : mobilePattern (jsToLower ua) = true := by
      simp [mobilePattern, hip]
    have hne : ua ≠ "" := by
      rintro rfl
      simp [jsToLower, jsIncludes, charsContains, charsStarts] at hip
    simp [getDeviceType, hne, hm]
  · intro ht
    by_cases hne : ua = ""
    · rw [hne] at ht
      exact absurd ht (by decide)
    · by_cases hm : mobilePattern (jsToLower ua) = true
      · have : getDeviceType ua = "mobile" := by simp [getDeviceType, hne, hm]
        rw [this] at ht
        exact absurd ht (by decide)
      · have hm' : mobilePattern (jsToLower ua) = false :=
          Bool.eq_false_iff.mpr hm
        by_cases htab : tabletPattern (jsToLower ua) = true
        · have hip : jsIncludes (jsToLower ua) "ipad" = false := by
            cases hI : jsIncludes (jsToLower ua) "ipad" with
            | false => rfl
            | true =>
                exact absurd (by simp [mobilePattern, hI] :
                  mobilePattern (jsToLower ua) = true) hm
          have htok : jsIncludes (jsToLower ua) "tablet" = true := by
            have htab' : jsIncludes (jsToLower ua) "tablet" = true ∨
                jsIncludes (jsToLower ua) "ipad" = true := by
              simpa [tabletPattern, Bool.or_eq_true] using htab
            rcases htab' with h | h
            · exact h
            · rw [h] at hip
              cases hip
          exact ⟨htok, hm'⟩
        · have : getDeviceType ua = "desktop" := by
            simp [getDeviceType, hne, hm', htab]
          rw [this] at ht
          exact absurd ht (by decide)

/-- Witness for C7's amended claim: the pure tablet token `iPad` is
classified mobile. -/
theorem device_type_tablet_only_via_tablet_token_witness :
    getDeviceType "iPad" = "mobile" :=
  (device_type_tablet_only_via_tablet_token "iPad").1 (by decide)

/-- C1 counterexample: a stored link whose custom alias is the reserved
segment `api` is answered with the reserved-path 404, not with a 302 to its
destination, falsifying the claim for that link. -/
theorem redirect_known_code_302_counterexample :
    apiAliasLink ∈ apiAliasStore.urls ∧
    apiAliasLink.customUrl = some apiAliasReq.shortCode ∧
    (handleRedirect apiAliasStore apiAliasReq).1 = Response.notFoundJson ∧
    ((handleRedirect apiAliasStore apiAliasReq).1).status ≠ 302 := by
  decide

/-- C1 (amended): for every stored link that is the unique link matching the
requested segment, if the segment is not the reserved string `api` the
handler responds with a 302 redirect whose target is the link's stored
destination URL. -/
theorem redirect_known_code_302 (store : Store) (u : ShortLink)
    (req : RedirectRequest) (hmem : u ∈ store.urls)
    (hapi : req.shortCode ≠ "api")
    (hmatch : u.shortUrl = req.shortCode ∨ u.customUrl = some req.shortCode)
    (huniq : ∀ v ∈ store.urls,
      (v.shortUrl = req.shortCode ∨ v.customUrl = some req.shortCode) → v = u) :
    (handleRedirect store req).1 = Response.redirect u.originalUrl ∧
    ((handleRedirect store req).1).status = 302 := by
  have hf := findUrl_unique store.urls req.shortCode u hmem hmatch huniq
  simp [handleRedirect, hapi, hf, Response.status]

/-- Witness for the amended C1 at `demoStore`/`demoReq`. -/
theorem redirect_known_code_302_witness :
    (handleRedirect demoStore demoReq).1 =
      Response.redirect "https://example.com/landing" ∧
    ((handleRedirect demoStore demoReq).1).status = 302 :=
  redirect_known_code_302 demoStore demoLink demoReq (by decide) (by decide)
    (by decide) (by decide)

/-- C2: a segment matching no stored link's short code and no custom alias
gets a 404 response and leaves the store unchanged — in particular no
ClickEvent is created. -/
theorem redirect_unknown_code_404 (store : Store) (req : RedirectRequest)
    (o : GeoOutcome)
    (h : ∀ u ∈ store.urls,
      u.shortUrl ≠ req.shortCode ∧ u.customUrl ≠ some req.shortCode) :
    ((redirectStep store req o).1).status = 404 ∧
    (redirectStep store req o).2 = store := by
  have hf : findUrl store.urls req.shortCode = none := by
    unfold findUrl
    rw [List.find?_eq_none]
    intro u hu
    simp only [Bool.or_eq_true, beq_iff_eq, not_or]
    exact ⟨(h u hu).1, fun hc => (h u hu).2 (by simpa using hc)⟩
  by_cases hapi : req.shortCode = "api"
  · simp [redirectStep, handleRedirect, hapi, Response.status]
  · simp [redirectStep, handleRedirect, hapi, hf, Response.status]

/-- Witness for C2 at `demoStore`/`missReq`. -/
theorem redirect_unknown_code_404_witness :
    ((redirectStep demoStore missReq (GeoOutcome.fail "boom")).1).status = 404 ∧
    (redirectStep demoStore missReq (GeoOutcome.fail "boom")).2 = demoStore :=
  redirect_unknown_code_404 demoStore missReq (GeoOutcome.fail "boom")
    (by decide)

/-- C3: for a request that resolves a link, the response equals what the
synchronous handler alone produces — computed before and without the
geolocation outcome, which is not even an input to it — so the background
enrichment-and-record sequence has no observable effect on the response
(it is identical under any two outcomes); and whatever the geolocation
outcome, exactly one ClickEvent referencing the resolved link is appended
afterwards. -/
theorem redirect_response_first_click_eventual (store : Store)
    (u : ShortLink) (req : RedirectRequest) (o o' : GeoOutcome)
    (hapi : req.shortCode ≠ "api")
    (hf : findUrl store.urls req.shortCode = some u) :
    (redirectStep store req o).1 = (handleRedirect store req).1 ∧
    (redirectStep store req o).1 = (redirectStep store req o').1 ∧
    ∃ c : ClickEvent,
      (redirectStep store req o).2.clicks = store.clicks ++ [c] ∧
      c.urlId = u.id := by
  refine ⟨?_, ?_, ?_⟩
  · simp [redirectStep, handleRedirect, hapi, hf]
  · simp [redirectStep, handleRedirect, hapi, hf]
  · refine ⟨recordClick
      { urlId := u.id, ip := req.ip,
        device := getDeviceType (req.userAgentHeader.getD ""),
        browser := getBrowser (req.userAgentHeader.getD ""),
        os := getOS (req.userAgentHeader.getD ""),
        referer := req.refererHeader.getD "Direct" }
      (geoValue req.ip o), ?_, rfl⟩
    simp [redirectStep, handleRedirect, hapi, hf]

/-- Witness for C3: same response under a failing and a succeeding
geolocation outcome, and a click referencing `demoLink` appended. -/
theorem redirect_response_first_click_eventual_witness :
    (redirectStep demoStore demoReq (GeoOutcome.fail "boom")).1 =
        (handleRedirect demoStore demoReq).1 ∧
    (redirectStep demoStore demoReq (GeoOutcome.fail "boom")).1 =
        (redirectStep demoStore demoReq
          (GeoOutcome.reply "success" (some "Paris") (some "France")
            (some "IDF"))).1 ∧
    ∃ c : ClickEvent,
      (redirectStep demoStore demoReq (GeoOutcome.fail "boom")).2.clicks =
          demoStore.clicks ++ [c] ∧
      c.urlId = demoLink.id :=
  redirect_response_first_click_eventual demoStore demoLink demoReq
    (GeoOutcome.fail "boom")
    (GeoOutcome.reply "success" (some "Paris") (some "France") (some "IDF"))
    (by decide) (by decide)

/-- C9: the reserved-path short-circuit fires exactly on the segment `api`:
that segment always gets the JSON 404 without touching the store, and any
other segment (for example one merely beginning with `api`) is resolved
against the store as a candidate short code. -/
theorem reserved_segment_exact (store : Store) (req : RedirectRequest) :
    (req.shortCode = "api" →
      handleRedirect store req = (Response.notFoundJson, none)) ∧
    (req.shortCode ≠ "api" →
      (findUrl store.urls req.shortCode = none →
        handleRedirect store req = (Response.notFoundPage, none)) ∧
      (∀ u, findUrl store.urls req.shortCode = some u →
        (handleRedirect store req).1 = Response.redirect u.originalUrl)) := by
  refine ⟨?_, ?_⟩
  · intro h
    simp [handleRedirect, h]
  · intro h
    constructor
    · intro hf
      simp [handleRedirect, h, hf]
    · intro u hf
      simp [handleRedirect, h, hf]

/-- Witness for C9: the segment `apidocs` is not short-circuited; it is
looked up and redirected. -/
theorem reserved_segment_exact_witness :
    (handleRedirect apidocsStore apidocsReq).1 =
      Response.redirect "https://docs.example/start" :=
  ((reserved_segment_exact apidocsStore apidocsReq).2 (by decide)).2
    apidocsLink (by decide)

/-- C8: deleting a link deletes every ClickEvent referencing it, and if
every click referenced an existing link before the delete, the same holds
after — no orphaned analytics. -/
theorem delete_cascades_clicks (store : Store) (uid urlId : Nat)
    (hinv : ∀ c ∈ store.clicks, ∃ u ∈ store.urls, u.id = c.urlId) :
    (∀ url,
      store.urls.find? (fun u => u.id == urlId && u.userId == uid) = some url →
      ∀ c ∈ (deleteUrl store uid urlId).2.clicks, c.urlId ≠ url.id) ∧
    (∀ c ∈ (deleteUrl store uid urlId).2.clicks,
      ∃ u ∈ (deleteUrl store uid urlId).2.urls, u.id = c.urlId) := by
  cases hf : store.urls.find? (fun u => u.id == urlId && u.userId == uid) with
  | none =>
      constructor
      · intro url hurl
        exact Option.noConfusion hurl
      · simpa [deleteUrl, hf] using hinv
  | some url =>
      have hclicks : (deleteUrl store uid urlId).2.clicks =
          store.clicks.filter (fun c => c.urlId != url.id) := by
        simp [deleteUrl, hf]
      have hurls : (deleteUrl store uid urlId).2.urls =
          store.urls.filter (fun u => u.id != url.id) := by
        simp [deleteUrl, hf]
      constructor
      · intro url' hurl' c hc
        injection hurl' with h
        subst h
        rw [hclicks] at hc
        have hm := List.mem_filter.mp hc
        simpa [bne_iff_ne] using hm.2
      · intro c hc
        rw [hclicks] at hc
        obtain ⟨hcmem, hcne⟩ := List.mem_filter.mp hc
        obtain ⟨u, hu, huid⟩ := hinv c hcmem
        refine ⟨u, ?_, huid⟩
        rw [hurls]
        apply List.mem_filter.mpr
        refine ⟨hu, ?_⟩
        rw [huid]
        exact hcne

/-- Witness for C8: after the owner deletes link 1, the surviving click
(which references link 2) does not reference the deleted link. -/
theorem delete_cascades_clicks_witness :
    (mkClick 2).urlId ≠ delLink1.id :=
  (delete_cascades_clicks twoLinkStore 7 1 (by decide)).1 delLink1 (by decide)
    (mkClick 2) (by decide)

end UrlShortener

-- Sanity checks: the embedding evaluated at concrete inputs.
example : UrlShortener.getDeviceType "tablet" = "tablet" := by decide
example : UrlShortener.getDeviceType "iPad" = "mobile" := by decide
example : UrlShortener.getDeviceType "" = "desktop" := by decide
example : UrlShortener.getBrowser "Mozilla Chrome/1.0" = "Chrome" := by decide
example : UrlShortener.getGeolocation "127.0.0.1" (.fail "x") =
    Except.ok (UrlShortener.localGeo, false) := rfl
example : UrlShortener.getGeolocation "8.8.8.8" (.fail "x") =
    Except.ok (UrlShortener.unknownGeo, true) := rfl
example : UrlShortener.getGeolocation "8.8.8.8" (.reply "success" (some "Paris") none (some "")) =
    Except.ok (⟨"Paris", "Unknown", "Unknown"⟩, true) := rfl
example : UrlShortener.isLocalIP "172.16.0.1" = false := by decide
example : UrlShortener.isLocalIP "10.0.0.1" = true := by decide
